import Mathlib

/-!
Verification of the pytektronix oscilloscope-control library against its
natural-language specification.  The definitions below are a shallow
embedding of `src/pytektronix/pytektronix_base_classes.py`,
`src/pytektronix/command_group_objects.py` and `src/pytektronix/scopes.py`:
Python numbers become `ℚ`, byte strings become `List Nat`, exceptions become
an error kind returned in `Except`, and the commands transmitted on the
transport (`Scope.write`) are collected in an explicit list, in order.
Exception messages are elided; only the exception class is modelled.
-/

deriving instance DecidableEq for Except

namespace Pytektronix

/-- Values a property setter can receive: Python `None`, an `int`/`float`
(merged into `ℚ`), or a `str`. -/
inductive PyVal where
  | null
  | num (q : ℚ)
  | str (s : String)
deriving DecidableEq, Repr, BEq

/-- Exception classes raised by the embedded code.  `nameError` also stands
for Python's `UnboundLocalError` (a subclass of `NameError`). -/
inductive PyErr where
  | valueError
  | keyError
  | notImplementedError
  | scopeStateError
  | nameError
  | indexError
deriving DecidableEq, Repr, BEq

/-- Python truthiness test `not value` restricted to the value types above:
`None`, the number `0` and the empty string are falsy. -/
def PyVal.isFalsy : PyVal → Bool
  | .null => true
  | .num q => q == 0
  | .str s => s == ""

/-- One alternative of an accepted-value spec: a literal string token
(Python list element of type `str`) or a numeric pair (Python `tuple`). -/
inductive AccVal where
  | tok (s : String)
  | range (lo hi : ℚ)
deriving DecidableEq, Repr, BEq

/-- One command transmitted with `Scope.write`: the command path and the
optional value appended after a space. -/
abbrev WriteCmd := String × Option PyVal

/-- Result of running a method: the commands written on the transport, in
order, together with the returned value or the raised exception. -/
abbrev PyRes (α : Type) := List WriteCmd × Except PyErr α

/-- Embeds `CommandGroupObject.supported_models`
(pytektronix_base_classes.py line 44). -/
def supportedModels : List String := ["MSO54", "MDO3024", "DEBUG"]

/-- Python `str.lower` on one character, for the ASCII range the instrument
protocol uses. -/
def pyLowerChar (c : Char) : Char :=
  if 65 ≤ c.toNat ∧ c.toNat ≤ 90 then Char.ofNat (c.toNat + 32) else c

/-- Python `str.lower`, for ASCII strings (all strings exchanged with the
instrument are ASCII). -/
def pyLower (s : String) : String := String.mk (s.toList.map pyLowerChar)

/-- Python `min` of a two-element tuple, as used on `accepted_range`. -/
def pyMin (a b : ℚ) : ℚ := if a ≤ b then a else b

/-- Python `max` of a two-element tuple, as used on `accepted_range`. -/
def pyMax (a b : ℚ) : ℚ := if a ≤ b then b else a

/-- Embeds `[x for x in accepted_values if isinstance(x, tuple)][0]` guarded
by `any(isinstance(x, tuple) for x in accepted_values)`
(pytektronix_base_classes.py lines 68-69): the first tuple alternative of
the spec, if any. -/
def firstRange (av : List AccVal) : Option (ℚ × ℚ) :=
  (av.filterMap fun a =>
    match a with
    | .range lo hi => some (lo, hi)
    | .tok _ => none).head?

/-- Embeds `CommandGroupObject._set_property_accepted_vals`
(pytektronix_base_classes.py lines 57-80).  The Python `if not value:`
branch writes the bare property name but does not return, so control falls
through to the unconditional final `self.instr.write(f"prop value")` on
line 80 and a second command is written.  The dead guard on lines 70-71
(`if not accepted_range and not isinstance(accepted_range, tuple)`) is
unreachable because `accepted_range` is always a tuple there, and is
omitted.  The range test on line 72 uses Python `min`/`max` of the tuple. -/
def setPropertyAcceptedVals (model : String) (prop : String)
    (acceptedValues : List AccVal) (value : PyVal) : PyRes Unit :=
  if supportedModels.contains model then
    if value.isFalsy then
      ([(prop, Option.none), (prop, some value)], .ok ())
    else
      match value with
      | .num q =>
        if acceptedValues.contains (.tok "any_number") then
          ([(prop, some value)], .ok ())
        else
          match firstRange acceptedValues with
          | some (lo, hi) =>
            if q < pyMin lo hi ∨ q > pyMax lo hi then
              ([], .error .valueError)
            else
              ([(prop, some value)], .ok ())
          | Option.none => ([(prop, some value)], .ok ())
      | .str s =>
        if acceptedValues.contains (.tok (pyLower s)) then
          ([(prop, some value)], .ok ())
        else
          ([], .error .valueError)
      | .null => ([(prop, some value)], .ok ())
  else
    ([], .error .notImplementedError)

/-- Embeds `CommandGroupObject._global_setter`
(pytektronix_base_classes.py lines 50-55): looks the logical property name
up in the accepted-value table and delegates to the validator; a missing
key raises `KeyError`. -/
def globalSetter (model : String) (acceptedValuesTable : List (String × List AccVal))
    (commandName command : String) (value : PyVal) : PyRes Unit :=
  match acceptedValuesTable.lookup commandName with
  | Option.none => ([], .error .keyError)
  | some av => setPropertyAcceptedVals model command av value

/-- Decides whether the first character list is a prefix of the second. -/
def charsPrefixOf : List Char → List Char → Bool
  | [], _ => true
  | _ :: _, [] => false
  | a :: as, b :: bs => a == b && charsPrefixOf as bs

/-- Decides whether the first character list occurs contiguously in the
second. -/
def charsInfixOf (sub : List Char) : List Char → Bool
  | [] => charsPrefixOf sub []
  | b :: bs => charsPrefixOf sub (b :: bs) || charsInfixOf sub bs

/-- Python substring test `sub in s` on strings. -/
def pyInStr (sub s : String) : Bool := charsInfixOf sub.toList s.toList

/-- Embeds the `TrigStrings` multi-value enumeration
(command_group_objects.py lines 7-18): maps every accepted spelling to the
canonical value (`TrigStrings(raw).value`), `Option.none` when the raw
string is no member (Python raises `ValueError` there). -/
def trigStringsValue (s : String) : Option String :=
  [("ready", "ready"), ("rea", "ready"),
   ("save", "save"), ("sav", "save"),
   ("triggered", "triggered"), ("trig", "triggered"),
   ("armed", "armed"), ("arm", "armed"),
   ("edge", "edge"), ("edg", "edge"),
   ("logic", "logic"), ("logi", "logic"),
   ("pulse", "pulse"), ("puls", "pulse"),
   ("bus", "bus"),
   ("video", "video"), ("vid", "video"),
   ("normal", "normal"), ("norm", "normal"),
   ("auto", "auto")].lookup s

/-- Embeds `Trigger.force` (command_group_objects.py lines 35-45).
`stateRaw` is the device reply to the `trigger:state` query; the property
`Trigger.state` canonicalises it through `TrigStrings`.  When the state is
not `ready` and `strict` is false, the source executes
`print(f"Scope in incorrect state to be forced: \x7bcheck\x7d")` where the
name `check` is defined nowhere, so evaluating the f-string raises
`NameError` instead of printing a diagnostic and returning. -/
def Trigger.force (strict : Bool) (stateRaw : String) : PyRes Unit :=
  match trigStringsValue (pyLower stateRaw) with
  | Option.none => ([], .error .valueError)
  | some state =>
    if state ≠ "ready" then
      if strict then ([], .error .scopeStateError)
      else ([], .error .nameError)
    else ([("trigger force", Option.none)], .ok ())

/-- Embeds the `Trigger.source` getter (command_group_objects.py lines
77-83).  `ask` is the pure query/reply behaviour of the transport; the
source reads the current trigger type (`ask(cn:type)` canonicalised via
`TrigStrings`), gates on the Python substring test
`self.trig_type not in "edge"`, and only then queries the source. -/
def Trigger.sourceGet (ask : String → String) (cn : String) : PyRes String :=
  match trigStringsValue (pyLower (ask (cn ++ ":type"))) with
  | Option.none => ([], .error .valueError)
  | some t =>
    if pyInStr t "edge" then
      ([], .ok (pyLower (ask (cn ++ ":" ++ t ++ ":source"))))
    else ([], .error .notImplementedError)

/-- Embeds the `Trigger.source` setter (command_group_objects.py lines
85-92): same trigger-type gate, but with list membership
`trig_type not in ["edge"]`, then delegation to `_global_setter`. -/
def Trigger.sourceSet (ask : String → String) (model : String)
    (table : List (String × List AccVal)) (cn : String) (value : PyVal) : PyRes Unit :=
  match trigStringsValue (pyLower (ask (cn ++ ":type"))) with
  | Option.none => ([], .error .valueError)
  | some t =>
    if ["edge"].contains t then
      globalSetter model table "source" (cn ++ ":" ++ t ++ ":source") value
    else ([], .error .notImplementedError)

/-- The four `Channel` properties guarded against digital channels
(command_group_objects.py lines 176-232). -/
inductive ChanProp where
  | position
  | offset
  | scale
  | coupling
deriving DecidableEq, Repr

/-- Logical name of a guarded channel property; it is also the last path
segment of its command. -/
def ChanProp.name : ChanProp → String
  | .position => "position"
  | .offset => "offset"
  | .scale => "scale"
  | .coupling => "coupling"

/-- Embeds the getters of `Channel.position/offset/scale/coupling`
(command_group_objects.py lines 176-232).  Each getter first tests
`self.is_digital` and executes `raise ScopeNotSupportedError(...)`; that
class is defined in pytektronix_base_classes.py but never imported into
command_group_objects.py (lines 1-5 import only `CommandGroupObject`,
`Scope`, `ScopeStateError` and `LoggedVXI11`), so the raise statement
itself raises `NameError`.  On analog channels the reply string is
returned (the subsequent `float(...)` conversion of the reply for
position/offset/scale is outside the claims settled here). -/
def Channel.getProp (isDigital : Bool) (ask : String → String) (cn : String)
    (p : ChanProp) : PyRes String :=
  if isDigital then ([], .error .nameError)
  else ([], .ok (ask (cn ++ ":" ++ p.name)))

/-- Embeds the setters of `Channel.position/offset/scale/coupling`
(command_group_objects.py lines 176-232): the same digital-channel guard
(raising `NameError`, see `Channel.getProp`), then `_global_setter`. -/
def Channel.setProp (isDigital : Bool) (model : String)
    (table : List (String × List AccVal)) (cn : String) (p : ChanProp)
    (value : PyVal) : PyRes Unit :=
  if isDigital then ([], .error .nameError)
  else globalSetter model table p.name (cn ++ ":" ++ p.name) value

/-- Embeds the `WFStrings` multi-value enumeration (command_group_objects.py
lines 240-248), mapping each accepted spelling of a data encoding to its
canonical value. -/
def wfStringsValue (s : String) : Option String :=
  [("ascii", "ascii"), ("asc", "ascii"),
   ("fastest", "fastest"),
   ("ribinary", "ribinary"), ("rib", "ribinary"),
   ("rpbinary", "rpbinary"), ("rpb", "rpbinary"),
   ("sribinary", "sribinary"), ("sri", "sribinary"),
   ("srpbinary", "srpbinary"), ("srp", "srpbinary"),
   ("fpbinary", "fpbinary"), ("fpb", "fpbinary"),
   ("sfpbinary", "sfpbinary"), ("sfp", "sfpbinary")].lookup s

/-- Embeds the header strip `data = data[2 + int(chr(data[1])):]`
(command_group_objects.py line 362) on a raw reply given as a byte list.
Indexing `data[1]` on a reply shorter than two bytes raises `IndexError`;
`int(chr(b))` succeeds exactly on the ASCII digits 48-57 and otherwise
raises `ValueError`; Python slicing past the end yields the empty
suffix, as `List.drop` does. -/
def decodeBlock (raw : List Nat) : Except PyErr (List Nat) :=
  match raw.get? 1 with
  | Option.none => .error .indexError
  | some b =>
    if 48 ≤ b ∧ b ≤ 57 then .ok (raw.drop (2 + (b - 48)))
    else .error .valueError

/-- Embeds `WaveformTransfer.get_data` (command_group_objects.py lines
341-364).  `encRaw` is the device reply to the `data:encdg` query; the
`data_encoding` property canonicalises it through `WFStrings` and
`get_data` lowercases the result.  The strip condition in the source is
`('binary' or 'fastest') in de`: Python evaluates the parenthesised
disjunction of two non-empty strings to its first operand `'binary'`, so
the test is exactly the substring test `'binary' in de`.  The `curve?`
command is written before the raw reply is read and decoded. -/
def WaveformTransfer.getData (dataReady : Bool) (encRaw : String)
    (raw : List Nat) : PyRes (List Nat) :=
  if dataReady then
    match wfStringsValue (pyLower encRaw) with
    | Option.none => ([], .error .valueError)
    | some enc =>
      let de := pyLower enc
      if pyInStr "binary" de then
        match decodeBlock raw with
        | .ok payload => ([("curve?", Option.none)], .ok payload)
        | .error e => ([("curve?", Option.none)], .error e)
      else ([("curve?", Option.none)], .ok raw)
  else ([], .error .scopeStateError)

/-- The paired scale buckets and offset ranges of
`MDO3024.compute_channel_offset_range` (scopes.py lines 118-127):
`mdo3024_ranges[idx]` zipped with the accepted-values list indexed by the
same `idx`. -/
def mdo3024Ranges : List ((ℚ × ℚ) × (ℚ × ℚ)) :=
  [((mkRat 1 1000, mkRat 50 1000), (-1, 1)),
   ((mkRat 50 1000, mkRat 100 1000), (mkRat (-1) 2, mkRat 1 2)),
   ((mkRat 100 1000, mkRat 500 1000), (-10, 10)),
   ((mkRat 505 1000, mkRat 995 1000), (-5, 5)),
   ((1, 5), (-100, 100)),
   ((5, 10), (-50, 50))]

/-- Embeds the dict lookup `{10e6: 0, 50: 1}[float(probe_resistance)]`
(scopes.py lines 113-114); any other resistance raises `KeyError`. -/
def probeResBucket (r : ℚ) : Option Nat :=
  if r = 10000000 then some 0
  else if r = 50 then some 1
  else Option.none

/-- Embeds the bucket loop of `MDO3024.compute_channel_offset_range`
(scopes.py lines 122-129).  The loop `continue`s past every bucket whose
maximum is below `vdiv` and otherwise overwrites `accepted_values` with
the bucket's paired range — it never breaks, so the last satisfying bucket
wins; the probe-resistance override replaces the just-assigned range by
`(-5, 5)` whenever `probe_res` is truthy and the range maximum exceeds
`0.5`.  The result is `Option.none` when no bucket was entered (then the
source raises `UnboundLocalError` on `return accepted_values`). -/
def offsetRangeLoop (probeRes : Nat) (vdiv : ℚ) : Option (ℚ × ℚ) :=
  mdo3024Ranges.foldl
    (fun acc p =>
      if vdiv > pyMax p.1.1 p.1.2 then acc
      else if probeRes ≠ 0 ∧ pyMax p.2.1 p.2.2 > mkRat 1 2 then some (-5, 5)
      else some p.2)
    Option.none

/-- Embeds the value computation of `MDO3024.compute_channel_offset_range`
(scopes.py lines 102-131) as a function of the channel's probe resistance
and the vertical scale `vdiv`, assuming the two lookups of the source
resolved (in the source, `set_channel` passes the `Channel` object itself
as `channel`, so `self.ch_dict[channel]` raises `KeyError`, and the facade
defines no attribute `scale` for `vdiv = self.scale`, which raises
`AttributeError`; this definition gives the values those expressions were
meant to produce so the arithmetic of the loop can be checked). -/
def computeChannelOffsetRange (probeResistance vdiv : ℚ) : Except PyErr (ℚ × ℚ) :=
  match probeResBucket probeResistance with
  | Option.none => .error .keyError
  | some pr =>
    match offsetRangeLoop pr vdiv with
    | Option.none => .error .nameError
    | some av => .ok av

/-- Raw reply `b"#210HELLOWORLD"` of the spec's decode example, as bytes. -/
def helloBlock : List Nat :=
  [35, 50, 49, 48, 72, 69, 76, 76, 79, 87, 79, 82, 76, 68]

/-- Payload `b"HELLOWORLD"` of the spec's decode example, as bytes. -/
def helloPayload : List Nat :=
  [72, 69, 76, 76, 79, 87, 79, 82, 76, 68]

example :
    setPropertyAcceptedVals "MDO3024" "horizontal:scale" [AccVal.range 1 5] (PyVal.num 6)
      = ([], Except.error PyErr.valueError) := by decide

example :
    setPropertyAcceptedVals "MDO3024" "horizontal:scale" [AccVal.range 1 5] (PyVal.num 5)
      = ([("horizontal:scale", some (PyVal.num 5))], Except.ok ()) := by decide

example :
    setPropertyAcceptedVals "MDO3024" "horizontal:scale" [AccVal.range 1 5] (PyVal.num 0)
      = ([("horizontal:scale", Option.none), ("horizontal:scale", some (PyVal.num 0))],
         Except.ok ()) := by decide

example :
    globalSetter "MDO3024" [("mode", [AccVal.tok "normal", AccVal.tok "auto"])]
      "mode" "trigger:a:mode" (PyVal.str "AUTO")
      = ([("trigger:a:mode", some (PyVal.str "AUTO"))], Except.ok ()) := by decide

example : Trigger.force true "ARMED" = ([], Except.error PyErr.scopeStateError) := by decide

example : Trigger.force false "armed" = ([], Except.error PyErr.nameError) := by decide

example : Trigger.force true "READY" = ([("trigger force", Option.none)], Except.ok ()) := by decide

example : Trigger.sourceGet (fun _ => "logic") "trigger:a" = ([], Except.error PyErr.notImplementedError) := by decide

example : Trigger.sourceGet (fun _ => "edge") "trigger:a" = ([], Except.ok "edge") := by decide

example : WaveformTransfer.getData true "fastest" helloBlock = ([("curve?", Option.none)], Except.ok helloBlock) := by decide

example : WaveformTransfer.getData true "ribinary" helloBlock = ([("curve?", Option.none)], Except.ok helloPayload) := by decide

example : WaveformTransfer.getData true "ascii" helloBlock = ([("curve?", Option.none)], Except.ok helloBlock) := by decide

example : decodeBlock helloBlock = Except.ok helloPayload := by decide

example : computeChannelOffsetRange 10000000 2 = Except.ok (-50, 50) := by decide

example : computeChannelOffsetRange 50 2 = Except.ok (-5, 5) := by decide

example : computeChannelOffsetRange 10000000 20 = Except.error PyErr.nameError := by decide

/-- Every raise inside `_set_property_accepted_vals` happens before the
function writes anything: whenever the embedded call errors, its
transmitted-command list is empty. -/
theorem spavErrorNoWrite (model prop : String) (av : List AccVal)
    (value : PyVal) (e : PyErr)
    (h : (setPropertyAcceptedVals model prop av value).2 = Except.error e) :
    (setPropertyAcceptedVals model prop av value).1 = [] := by
  unfold setPropertyAcceptedVals at h ⊢
  by_cases hm : model ∈ supportedModels
  · rcases value with _ | q | s
    · simp [hm, PyVal.isFalsy] at h
    · cases hf : PyVal.isFalsy (PyVal.num q)
      · cases ha : av.contains (AccVal.tok "any_number")
        · rcases hfr : firstRange av with _ | ⟨lo, hi⟩
          · simp [hm, hf, ha, hfr] at h
          · by_cases ho : q < pyMin lo hi ∨ q > pyMax lo hi
            · simp [hm, hf, ha, hfr, ho]
            · simp [hm, hf, ha, hfr, ho] at h
        · simp [hm, hf, ha] at h
      · simp [hm, hf] at h
    · cases hf : PyVal.isFalsy (PyVal.str s)
      · cases hc : av.contains (AccVal.tok (pyLower s))
        · simp [hm, hf, hc]
        · simp [hm, hf, hc] at h
      · simp [hm, hf] at h
  · simp [hm]

/-- The `if not value:` branch of `_set_property_accepted_vals` performs no
validation and, lacking a return, also falls through to the final
unconditional write: a falsy value always produces the bare command
followed by the command with the value appended. -/
theorem spavFalsyWrites (model prop : String) (av : List AccVal) (value : PyVal)
    (hm : model ∈ supportedModels) (hf : value.isFalsy = true) :
    setPropertyAcceptedVals model prop av value
      = ([(prop, Option.none), (prop, some value)], Except.ok ()) := by
  unfold setPropertyAcceptedVals
  simp [hm, hf]

/-- C1 counterexample: the numeric value `0` is falsy in Python, so with the
accepted-value spec `[(1, 5)]` the candidate `0` lies strictly below the
interval yet is not rejected — the bare-command branch runs and the value
is forwarded. -/
theorem C1_counterexample :
    (0 : ℚ) < 1
    ∧ setPropertyAcceptedVals "MDO3024" "data:start" [AccVal.range 1 5] (PyVal.num 0)
        = ([("data:start", Option.none), ("data:start", some (PyVal.num 0))],
           Except.ok ()) :=
  ⟨by norm_num, by decide⟩

/-- C1 (amended): for every property setter on a supported model whose spec
has the interval `[lo, hi]` as its first numeric interval alternative and no
`any_number` sentinel, a NONZERO numeric value `v` with `v < lo` or `v > hi`
is rejected with a `ValueError` and nothing is written, while `v = lo` and
`v = hi` (inclusive boundary) are accepted and forwarded as one command;
the value `0` instead bypasses validation entirely (see C1 counterexample),
and only the first interval of the spec is ever consulted. -/
theorem C1_interval_boundary (model prop : String) (av : List AccVal)
    (lo hi v : ℚ)
    (hm : model ∈ supportedModels)
    (hr : firstRange av = some (lo, hi))
    (hs : av.contains (AccVal.tok "any_number") = false)
    (hle : lo ≤ hi) (hv : v ≠ 0) :
    ((v < lo ∨ v > hi) →
      setPropertyAcceptedVals model prop av (PyVal.num v)
        = ([], Except.error PyErr.valueError))
    ∧ ((v = lo ∨ v = hi) →
      setPropertyAcceptedVals model prop av (PyVal.num v)
        = ([(prop, some (PyVal.num v))], Except.ok ())) := by
  have hfal : (PyVal.num v).isFalsy = false := by
    simp [PyVal.isFalsy, hv]
  have hmin : pyMin lo hi = lo := by simp [pyMin, hle]
  have hmax : pyMax lo hi = hi := by simp [pyMax, hle]
  constructor
  · intro hout
    have hout2 : v < pyMin lo hi ∨ pyMax lo hi < v := by
      rw [hmin, hmax]
      exact hout
    simp [setPropertyAcceptedVals, hm, hfal, hs, hr, hout2]
  · intro hb
    have hnot : ¬ (v < pyMin lo hi ∨ pyMax lo hi < v) := by
      rw [hmin, hmax]
      rcases hb with rfl | rfl <;> push_neg <;> constructor <;> linarith
    simp [setPropertyAcceptedVals, hm, hfal, hs, hr, hnot]

/-- Witness for C1: with spec `[(1, 5)]` the upper bound `5` itself is
accepted and forwarded. -/
theorem C1_interval_boundary_witness :
    setPropertyAcceptedVals "MDO3024" "data:start" [AccVal.range 1 5] (PyVal.num 5)
      = ([("data:start", some (PyVal.num 5))], Except.ok ()) :=
  (C1_interval_boundary "MDO3024" "data:start" [AccVal.range 1 5] 1 5 5
    (by decide) (by decide) (by decide) (by norm_num) (by norm_num)).2 (Or.inr rfl)

/-- C2: whenever a property set operation raises (in particular when the
candidate value fails validation), no command has been written on the
transport — the transmitted-command log of the call is empty, so it
contains no command carrying the rejected value. -/
theorem C2_reject_no_write (model : String)
    (table : List (String × List AccVal)) (commandName command : String)
    (value : PyVal) (e : PyErr)
    (h : (globalSetter model table commandName command value).2 = Except.error e) :
    (globalSetter model table commandName command value).1 = [] := by
  unfold globalSetter at h ⊢
  revert h
  rcases hl : table.lookup commandName with _ | av
  · intro h
    rfl
  · intro h
    exact spavErrorNoWrite model command av value e h

/-- Witness for C2: the string `bogus` is not in the accepted enumeration of
`mode`, the call errors, and nothing is written. -/
theorem C2_reject_no_write_witness :
    (globalSetter "MDO3024" [("mode", [AccVal.tok "normal", AccVal.tok "auto"])]
      "mode" "trigger:a:mode" (PyVal.str "bogus")).1 = [] :=
  C2_reject_no_write "MDO3024" [("mode", [AccVal.tok "normal", AccVal.tok "auto"])]
    "mode" "trigger:a:mode" (PyVal.str "bogus") PyErr.valueError (by decide)

/-- C3: `Trigger.force` in a non-READY state raises `ScopeStateError` when
`strict` is true, as claimed; but when `strict` is false the source
evaluates an f-string naming the undefined variable `check`, so the call
raises `NameError` instead of completing quietly with a diagnostic.  In the
READY state the force command is written.  This records the code bug for
the non-strict half of the claim. -/
theorem C3_force_gate :
    Trigger.force true "armed" = ([], Except.error PyErr.scopeStateError)
    ∧ Trigger.force false "armed" = ([], Except.error PyErr.nameError)
    ∧ Trigger.force true "READY" = ([("trigger force", Option.none)], Except.ok ())
    ∧ Trigger.force false "READY" = ([("trigger force", Option.none)], Except.ok ()) :=
  ⟨by decide, by decide, by decide, by decide⟩

/-- C4: `get_data` strips the header for the binary encodings and returns
ASCII replies unmodified, but for the encoding `fastest` — the default set
by `initialize_data` — the reply is returned UNMODIFIED, header included,
because `('binary' or 'fastest') in de` evaluates to `'binary' in de`.
This records the code bug for the `fastest` half of the claim. -/
theorem C4_fastest_not_stripped :
    WaveformTransfer.getData true "fastest" helloBlock
      = ([("curve?", Option.none)], Except.ok helloBlock)
    ∧ WaveformTransfer.getData true "ribinary" helloBlock
      = ([("curve?", Option.none)], Except.ok helloPayload)
    ∧ WaveformTransfer.getData true "ascii" helloBlock
      = ([("curve?", Option.none)], Except.ok helloBlock) :=
  ⟨by decide, by decide, by decide⟩

/-- C5: for every raw reply whose byte at index 1 is the ASCII digit `N`,
the decode step returns exactly the suffix starting at byte offset
`2 + N`. -/
theorem C5_header_offset (raw : List Nat) (b : Nat)
    (h1 : raw.get? 1 = some b) (h2 : 48 ≤ b) (h3 : b ≤ 57) :
    decodeBlock raw = Except.ok (raw.drop (2 + (b - 48))) := by
  unfold decodeBlock
  rw [h1]
  simp [h2, h3]

/-- Witness for C5: decoding `b"#210HELLOWORLD"` (digit count 2, length
field 10) returns exactly the ten bytes `b"HELLOWORLD"`. -/
theorem C5_header_offset_witness :
    decodeBlock helloBlock = Except.ok helloPayload :=
  (C5_header_offset helloBlock 50 (by decide) (by decide) (by decide)).trans (by decide)

/-- C6: evaluating the offset-range computation of
`compute_channel_offset_range` at vertical scale `2` shows the claim's
expected result `(-5, 5)` is produced only for the 50 Ohm (low-resistance)
probe value via the override; for the 10 MOhm (high-resistance) probe the
bucket loop keeps overwriting and the LAST satisfying bucket `(5, 10)`
wins, returning `(-50, 50)`, not the claimed `(-5, 5)`.  (In the source the
surrounding method cannot even reach this computation when invoked from
`set_channel`: it indexes `ch_dict` with the `Channel` object and reads the
undefined facade attribute `scale`.) -/
theorem C6_offset_range_recompute :
    computeChannelOffsetRange 10000000 2 = Except.ok (-50, 50)
    ∧ computeChannelOffsetRange 50 2 = Except.ok (-5, 5)
    ∧ ((-50, 50) : ℚ × ℚ) ≠ ((-5, 5) : ℚ × ℚ) :=
  ⟨by decide, by decide, by decide⟩

/-- C7 counterexample: for the falsy value `0` the setter does not transmit
exactly one bare command — the missing return after the bare write lets
control fall through to the unconditional final write, so two commands are
transmitted, the second carrying the value. -/
theorem C7_counterexample :
    (setPropertyAcceptedVals "MDO3024" "horizontal:position"
        [AccVal.range 0 100] (PyVal.num 0)).1
      = [("horizontal:position", Option.none),
         ("horizontal:position", some (PyVal.num 0))]
    ∧ (setPropertyAcceptedVals "MDO3024" "horizontal:position"
        [AccVal.range 0 100] (PyVal.num 0)).1
      ≠ [("horizontal:position", Option.none)] :=
  ⟨by decide, by decide⟩

/-- C7 (amended): for every property set operation with a falsy
(absent/empty/zero) value on a supported model, no value comparison against
the accepted-value spec is performed and exactly TWO commands are
transmitted: first the property's command path alone, then the command path
with the falsy value appended. -/
theorem C7_bare_command (model prop : String) (av : List AccVal) (value : PyVal)
    (hm : model ∈ supportedModels) (hf : value.isFalsy = true) :
    setPropertyAcceptedVals model prop av value
      = ([(prop, Option.none), (prop, some value)], Except.ok ()) :=
  spavFalsyWrites model prop av value hm hf

/-- Witness for C7: the empty string forwarded through a spec it could
never satisfy still yields the bare command followed by the valued one. -/
theorem C7_bare_command_witness :
    setPropertyAcceptedVals "MDO3024" "trigger:a:mode"
      [AccVal.tok "normal", AccVal.tok "auto"] (PyVal.str "")
      = ([("trigger:a:mode", Option.none),
          ("trigger:a:mode", some (PyVal.str ""))], Except.ok ()) :=
  C7_bare_command "MDO3024" "trigger:a:mode"
    [AccVal.tok "normal", AccVal.tok "auto"] (PyVal.str "") (by decide) (by decide)

/-- C8: on a channel constructed with `is_digital = true`, every get and
every set of `position`, `offset`, `scale` and `coupling` fails
immediately — before and independent of any validator check — and
transmits nothing; but the error raised is `NameError`, because
`ScopeNotSupportedError` is referenced without being imported into
command_group_objects.py.  This records the code bug in the error type. -/
theorem C8_digital_guard (model cn : String)
    (table : List (String × List AccVal)) (ask : String → String)
    (p : ChanProp) (value : PyVal) :
    Channel.setProp true model table cn p value = ([], Except.error PyErr.nameError)
    ∧ Channel.getProp true ask cn p = ([], Except.error PyErr.nameError) :=
  ⟨rfl, rfl⟩

/-- C9: when the device-reported trigger type canonicalises to any
non-edge type (logic, pulse, bus, video), both reading and writing the
trigger source fail with the not-applicable (`NotImplementedError`) error;
when it canonicalises to `edge`, the getter queries and returns the
lowercased source and the setter delegates to the validator and write path
as usual — so setting the type back to edge restores normal behaviour. -/
theorem C9_source_requires_edge (ask : String → String) (model cn : String)
    (table : List (String × List AccVal)) (value : PyVal) (t : String)
    (ht : trigStringsValue (pyLower (ask (cn ++ ":type"))) = some t) :
    (t ∈ ["logic", "pulse", "bus", "video"] →
      Trigger.sourceGet ask cn = ([], Except.error PyErr.notImplementedError)
      ∧ Trigger.sourceSet ask model table cn value
          = ([], Except.error PyErr.notImplementedError))
    ∧ (t = "edge" →
      Trigger.sourceGet ask cn
        = ([], Except.ok (pyLower (ask (cn ++ ":" ++ "edge" ++ ":source"))))
      ∧ Trigger.sourceSet ask model table cn value
          = globalSetter model table "source" (cn ++ ":" ++ "edge" ++ ":source") value) := by
  constructor
  · intro hmem
    have hts : t = "logic" ∨ t = "pulse" ∨ t = "bus" ∨ t = "video" := by
      simpa using hmem
    constructor
    · unfold Trigger.sourceGet
      rw [ht]
      rcases hts with rfl | rfl | rfl | rfl <;> rfl
    · unfold Trigger.sourceSet
      rw [ht]
      rcases hts with rfl | rfl | rfl | rfl <;> rfl
  · rintro rfl
    constructor
    · unfold Trigger.sourceGet
      rw [ht]
      rfl
    · unfold Trigger.sourceSet
      rw [ht]
      rfl

/-- Witness for C9: with the device reporting trigger type `logic`, reading
the source fails with the not-applicable error. -/
theorem C9_source_requires_edge_witness :
    Trigger.sourceGet (fun _ => "logic") "trigger:a"
      = ([], Except.error PyErr.notImplementedError) :=
  ((C9_source_requires_edge (fun _ => "logic") "MDO3024" "trigger:a" []
      (PyVal.str "ch1") "logic" (by decide)).1 (by decide)).1

/-- C10: the numeric value `0` and the empty string are falsy, so the
validator performs no check at all on them: for every spec — including
specs whose every numeric interval excludes `0` — no value-rejection error
is raised and a write carrying the value is still issued (preceded by the
fallen-through bare command). -/
theorem C10_zero_and_empty_bypass (model prop : String) (av : List AccVal)
    (hm : model ∈ supportedModels) :
    setPropertyAcceptedVals model prop av (PyVal.num 0)
      = ([(prop, Option.none), (prop, some (PyVal.num 0))], Except.ok ())
    ∧ setPropertyAcceptedVals model prop av (PyVal.str "")
      = ([(prop, Option.none), (prop, some (PyVal.str ""))], Except.ok ()) :=
  ⟨spavFalsyWrites model prop av (PyVal.num 0) hm (by decide),
   spavFalsyWrites model prop av (PyVal.str "") hm (by decide)⟩

/-- Witness for C10: with spec `[(1, 5)]`, which excludes `0`, the value
`0` still raises nothing and both commands are written. -/
theorem C10_zero_and_empty_bypass_witness :
    setPropertyAcceptedVals "MDO3024" "data:start" [AccVal.range 1 5] (PyVal.num 0)
      = ([("data:start", Option.none), ("data:start", some (PyVal.num 0))],
         Except.ok ())
    ∧ setPropertyAcceptedVals "MDO3024" "data:start" [AccVal.range 1 5] (PyVal.str "")
      = ([("data:start", Option.none), ("data:start", some (PyVal.str ""))],
         Except.ok ()) :=
  C10_zero_and_empty_bypass "MDO3024" "data:start" [AccVal.range 1 5] (by decide)

end Pytektronix
